import Mathlib

-- Verification development for the filtering / query / join engine of
-- src/processing/data_filter.py (class DataFilter).  Datasets are modelled as
-- lists of rows; a column of a dataset is modelled by an accessor function
-- from rows to an Option-typed value, where `none` stands for a missing value
-- (NaN / NaT / None in pandas).

set_option maxHeartbeats 1000000

namespace InsightStream

-- ------------------------------------------------------------------
-- Column aggregation helpers (pandas Series.min / Series.max skip NaN;
-- on an all-missing column they yield NaN, modelled here as `none`).
-- ------------------------------------------------------------------

def colMin {α : Type} (orig : List α) (col : α → Option ℚ) : Option ℚ :=
  match orig.filterMap col with
  | [] => none
  | q :: qs => some (qs.foldl min q)

def colMax {α : Type} (orig : List α) (col : α → Option ℚ) : Option ℚ :=
  match orig.filterMap col with
  | [] => none
  | q :: qs => some (qs.foldl max q)

-- ------------------------------------------------------------------
-- Model of Python regular-expression search as used by
-- Series.str.contains(term, case=False, na=False).  The model covers
-- patterns built from literal characters and the `.` wildcard (one
-- arbitrary character); other regex metacharacters are outside the model.
-- case=False is modelled by lowering both pattern and subject.
-- ------------------------------------------------------------------

inductive RTok where
  | rlit (c : Char)
  | rdot
deriving DecidableEq

def compileRe (s : String) : List RTok :=
  (s.toList.map Char.toLower).map (fun c => if c == '.' then RTok.rdot else RTok.rlit c)

def rtokMatch : RTok → Char → Bool
  | RTok.rlit c, d => c == d
  | RTok.rdot, _ => true

def matchHere : List RTok → List Char → Bool
  | [], _ => true
  | _ :: _, [] => false
  | t :: ts, c :: cs => rtokMatch t c && matchHere ts cs

def reSearch (pat : List RTok) : List Char → Bool
  | [] => matchHere pat []
  | c :: cs => matchHere pat (c :: cs) || reSearch pat cs

-- Model of df[col].str.contains(term, case=False, na=False): missing values
-- never match (na=False); otherwise regex search, case-insensitively.
def strContainsCF (term : String) (v : Option String) : Bool :=
  match v with
  | none => false
  | some s => reSearch (compileRe term) (s.toList.map Char.toLower)

-- Spec-side definition (refinement target), following the spec words
-- "rows whose value contains the term, case-insensitively": plain
-- substring containment, case-insensitive.
def startsWithList : List Char → List Char → Bool
  | [], _ => true
  | _ :: _, [] => false
  | c :: cs, d :: ds => c == d && startsWithList cs ds

def containsSubList (hay needle : List Char) : Bool :=
  match hay with
  | [] => startsWithList needle []
  | _ :: t => startsWithList needle hay || containsSubList t needle

def substrContainsSpec (term : String) (v : Option String) : Bool :=
  match v with
  | none => false
  | some s => containsSubList (s.toList.map Char.toLower) (term.toList.map Char.toLower)

-- ------------------------------------------------------------------
-- DataFilter._handle_numeric_filter (lines 279-383).
-- The user-selected bounds final_min / final_max arrive from the slider or
-- the manual inputs; min_val / max_val are computed over the original
-- column.  A float NaN min/max is modelled as `none`, so the Python
-- comparison final_min != min_val is `some fmin ≠ colMin`.
-- The first component of the result models the st.error message emitted
-- (none when no error is shown); the rest mirrors the Python return triple
-- (dataframe, applied flag, description).
-- ------------------------------------------------------------------

def numErrMsg (fmin fmax : ℚ) : String :=
  "Minimum (" ++ toString fmin ++ ") cannot be greater than maximum (" ++ toString fmax ++ ")"

def numDesc (colName : String) (fmin fmax : ℚ) : String :=
  colName ++ ": " ++ toString fmin ++ " to " ++ toString fmax

-- Row mask for df[(df[col] >= final_min) & (df[col] <= final_max)]:
-- a NaN value satisfies neither comparison.
def numMask (v : Option ℚ) (fmin fmax : ℚ) : Bool :=
  match v with
  | some q => decide (fmin ≤ q) && decide (q ≤ fmax)
  | none => false

def handleNumericFilter {α : Type} (orig df : List α) (col : α → Option ℚ)
    (colName : String) (fmin fmax : ℚ) :
    Option String × List α × Bool × String :=
  if fmin > fmax then
    (some (numErrMsg fmin fmax), df, false, "")
  else if some fmin ≠ colMin orig col ∨ some fmax ≠ colMax orig col then
    (none, df.filter (fun r => numMask (col r) fmin fmax), true, numDesc colName fmin fmax)
  else
    (none, df, false, "")

-- ------------------------------------------------------------------
-- DataFilter._handle_categorical_filter (lines 257-277).
-- unique_values = original[col].unique() is modelled (up to order, which
-- nothing downstream depends on) by List.dedup of the column values;
-- pandas unique() includes a missing value as a distinct entry, hence
-- Option String values.  isin(selected_values) is membership, and a
-- missing value matches a missing entry of the selection (pandas isin
-- matches NaN against NaN).
-- ------------------------------------------------------------------

def catSubsetDesc (colName : String) (nsel nuniq : Nat) : String :=
  colName ++ ": " ++ toString nsel ++ "/" ++ toString nuniq ++ " values"

def catSearchDesc (colName : String) (term : String) : String :=
  colName ++ ": contains " ++ term

def handleCategoricalFilter {α : Type} (orig df : List α) (col : α → Option String)
    (colName : String) (selectedValues : List (Option String)) (searchTerm : String) :
    List α × Bool × String :=
  if (orig.map col).dedup.length ≤ 50 then
    if selectedValues.length < (orig.map col).dedup.length then
      (df.filter (fun r => selectedValues.contains (col r)), true,
        catSubsetDesc colName selectedValues.length (orig.map col).dedup.length)
    else
      (df, false, "")
  else
    if searchTerm ≠ "" then
      (df.filter (fun r => strContainsCF searchTerm (col r)), true,
        catSearchDesc colName searchTerm)
    else
      (df, false, "")

-- ------------------------------------------------------------------
-- DataFilter._handle_datetime_filter (lines 385-402): dates modelled as
-- integers (day ordinals); a NaT value satisfies neither bound.
-- ------------------------------------------------------------------

def dcolMin {α : Type} (orig : List α) (col : α → Option ℤ) : Option ℤ :=
  match orig.filterMap col with
  | [] => none
  | q :: qs => some (qs.foldl min q)

def dcolMax {α : Type} (orig : List α) (col : α → Option ℤ) : Option ℤ :=
  match orig.filterMap col with
  | [] => none
  | q :: qs => some (qs.foldl max q)

def dateMask (v : Option ℤ) (startD endD : ℤ) : Bool :=
  match v with
  | some d => decide (startD ≤ d) && decide (d ≤ endD)
  | none => false

def handleDatetimeFilter {α : Type} (orig df : List α) (col : α → Option ℤ)
    (colName : String) (startD endD : ℤ) : List α × Bool × String :=
  if some startD ≠ dcolMin orig col ∨ some endD ≠ dcolMax orig col then
    (df.filter (fun r => dateMask (col r) startD endD), true,
      colName ++ ": " ++ toString startD ++ " to " ++ toString endD)
  else
    (df, false, "")

-- ------------------------------------------------------------------
-- Filter Session State: DataFilter.__init__ (lines 13-23), filter_info,
-- clear_filters (lines 551-561), and the filter_info update performed by
-- render_filter_ui (lines 72-80).
-- ------------------------------------------------------------------

structure FilterInfo where
  active : Bool
  ftype : Option String
  original_count : Nat
  filtered_count : Nat
  filters_applied : List String
deriving DecidableEq

structure DFState (α : Type) where
  original_df : List α
  filtered_df : List α
  filter_info : FilterInfo
deriving DecidableEq

def mkDataFilter {α : Type} (df : List α) : DFState α :=
  { original_df := df
    filtered_df := df
    filter_info :=
      { active := false
        ftype := none
        original_count := df.length
        filtered_count := df.length
        filters_applied := [] } }

-- clear_filters returns the updated session state together with the
-- dataframe the Python method returns.
def clearFilters {α : Type} (s : DFState α) : DFState α × List α :=
  ({ original_df := s.original_df
     filtered_df := s.original_df
     filter_info :=
       { active := false
         ftype := none
         original_count := s.original_df.length
         filtered_count := s.original_df.length
         filters_applied := [] } },
   s.original_df)

-- The state update done at the end of render_filter_ui after one of the
-- three operations produced (filtered_df, filters_applied, details).
def updateFilterInfo {α : Type} (s : DFState α) (ftype : String)
    (df : List α) (applied : Bool) (details : List String) : DFState α :=
  { s with
    filtered_df := df
    filter_info :=
      { active := applied
        ftype := some ftype
        original_count := s.original_df.length
        filtered_count := df.length
        filters_applied := details } }

-- ------------------------------------------------------------------
-- DataFilter._simple_filters (lines 89-122).  Each selected column is
-- described by a ColSpec carrying the dtype-dispatch outcome of lines
-- 111-116 together with the user parameters of its handler.  `otherCol`
-- stands for a selected column whose dtype is in none of the three
-- dispatch groups (object/category, int64/float64, datetime): no branch
-- assigns the Python locals col_filtered / filter_detail there, so line
-- 118 reads an unbound local on the first such column; on a later column
-- the stale values of the previous iteration are read.  The Option
-- argument of the loop models that local-variable binding and `Except`
-- models the escaping UnboundLocalError.
-- ------------------------------------------------------------------

inductive ColSpec (α : Type) where
  | catCol (colName : String) (col : α → Option String)
      (selectedValues : List (Option String)) (searchTerm : String)
  | numCol (colName : String) (col : α → Option ℚ) (fmin fmax : ℚ)
  | dtCol (colName : String) (col : α → Option ℤ) (startD endD : ℤ)
  | otherCol

def unboundLocalMsg : String :=
  "UnboundLocalError: local variable col_filtered referenced before assignment"

def simpleFiltersAux {α : Type} (orig : List α) :
    List (ColSpec α) → List α → Bool → List String → Option (Bool × String) →
    Except String (List α × Bool × List String)
  | [], df, fa, det, _ => Except.ok (df, fa, det)
  | ColSpec.catCol nm col sel term :: rest, df, fa, det, _ =>
      let r := handleCategoricalFilter orig df col nm sel term
      simpleFiltersAux orig rest r.1 (fa || r.2.1)
        (if r.2.1 then det ++ [r.2.2] else det) (some (r.2.1, r.2.2))
  | ColSpec.numCol nm col fmin fmax :: rest, df, fa, det, _ =>
      let r := handleNumericFilter orig df col nm fmin fmax
      simpleFiltersAux orig rest r.2.1 (fa || r.2.2.1)
        (if r.2.2.1 then det ++ [r.2.2.2] else det) (some (r.2.2.1, r.2.2.2))
  | ColSpec.dtCol nm col sd ed :: rest, df, fa, det, _ =>
      let r := handleDatetimeFilter orig df col nm sd ed
      simpleFiltersAux orig rest r.1 (fa || r.2.1)
        (if r.2.1 then det ++ [r.2.2] else det) (some (r.2.1, r.2.2))
  | ColSpec.otherCol :: rest, df, fa, det, colf =>
      match colf with
      | none => Except.error unboundLocalMsg
      | some (cf, d) =>
          simpleFiltersAux orig rest df (fa || cf)
            (if cf then det ++ [d] else det) (some (cf, d))

def simpleFilters {α : Type} (orig : List α) (specs : List (ColSpec α)) :
    Except String (List α × Bool × List String) :=
  match specs with
  | [] => Except.ok (orig, false, [])
  | _ :: _ => simpleFiltersAux orig specs orig false [] none

-- ------------------------------------------------------------------
-- DataFilter._query_builder (lines 404-541).
-- A condition is the per-row UI outcome of lines 436-493: the column name
-- together with the branch taken by the dtype dispatch (numeric column,
-- categorical column, or the fallback for other dtypes) and the chosen
-- operator and value.  The Python code escapes quote characters when it
-- renders a string literal into the query text and the query parser
-- unescapes them again, so the net value compared at evaluation time is
-- the raw value; fragments therefore carry the raw value.
-- ------------------------------------------------------------------

inductive Conn where
  | cand
  | cor
deriving DecidableEq

inductive NumOp where
  | gt | lt | ge | le | eq | ne
deriving DecidableEq

inductive CatOp where
  | ceq | cne | csub
deriving DecidableEq

inductive QCond where
  | qnum (colName : String) (op : NumOp) (v : ℚ)
  | qcat (colName : String) (op : CatOp) (v : String)
  | qfall (colName : String) (isEq : Bool) (v : String)
deriving DecidableEq

-- The evaluable content of an emitted fragment: a numeric comparison, a
-- case-insensitive containment test (str.contains(v, case=False, na=False)),
-- or a string equality / inequality comparison.
inductive QAtom where
  | anum (colName : String) (op : NumOp) (v : ℚ)
  | asub (colName : String) (v : String)
  | acmp (colName : String) (isEq : Bool) (v : String)
deriving DecidableEq

inductive Frag where
  | fcond (a : QAtom)
  | fconn (l : Conn)
deriving DecidableEq

-- Lines 470 and 491: a categorical or fallback condition is emitted only
-- when its text value is non-empty; a numeric condition is always emitted.
def emits : QCond → Bool
  | QCond.qnum _ _ _ => true
  | QCond.qcat _ _ v => !(v == "")
  | QCond.qfall _ _ v => !(v == "")

def condAtom : QCond → QAtom
  | QCond.qnum c op v => QAtom.anum c op v
  | QCond.qcat c CatOp.csub v => QAtom.asub c v
  | QCond.qcat c CatOp.ceq v => QAtom.acmp c true v
  | QCond.qcat c CatOp.cne v => QAtom.acmp c false v
  | QCond.qfall c b v => QAtom.acmp c b v

-- Lines 432-503: the loop over conditions.  After condition i the chosen
-- connective logics[i] is appended when i < n-1 and query_parts is
-- non-empty at that moment.  n is the total number of conditions and the
-- selectbox always yields a connective, modelled by getD with the default
-- first option "and".
def buildPartsAux (n : Nat) (logics : List Conn) :
    List (Nat × QCond) → List Frag → List Frag
  | [], acc => acc
  | (i, c) :: rest, acc =>
      let acc1 := if emits c then acc ++ [Frag.fcond (condAtom c)] else acc
      let acc2 :=
        if i + 1 < n then
          if acc1 = [] then acc1 else acc1 ++ [Frag.fconn (logics.getD i Conn.cand)]
        else acc1
      buildPartsAux n logics rest acc2

def buildParts (conds : List QCond) (logics : List Conn) : List Frag :=
  buildPartsAux conds.length logics conds.enum []

-- Lines 507-509: remove a trailing logic operator (the code pops at most
-- one).
def popTrailing (parts : List Frag) : List Frag :=
  match parts.getLast? with
  | some (Frag.fconn _) => parts.dropLast
  | _ => parts

-- ------------------------------------------------------------------
-- Evaluation of the assembled expression by DataFrame.query (line 520).
-- Rows of the queried dataset are association lists from column name to
-- cell value; `cnan` is a missing value.  The expression text is parsed
-- into an alternation  cond (connective cond)*  (anything else is a
-- syntax error, e.g. a doubled or dangling connective); `and` binds
-- tighter than `or` as in Python, so the parsed sequence is grouped into
-- or-separated and-chains.  A type-mismatched comparison raises, modelled
-- by Except.error.
-- ------------------------------------------------------------------

inductive CellVal where
  | cnum (q : ℚ)
  | cstr (s : String)
  | cnan
deriving DecidableEq

abbrev QRow : Type := List (String × CellVal)

def numCmp : NumOp → ℚ → ℚ → Bool
  | NumOp.gt, a, b => decide (a > b)
  | NumOp.lt, a, b => decide (a < b)
  | NumOp.ge, a, b => decide (a ≥ b)
  | NumOp.le, a, b => decide (a ≤ b)
  | NumOp.eq, a, b => a == b
  | NumOp.ne, a, b => !(a == b)

def typeErrMsg : String := "TypeError: invalid comparison between column and literal"

def strAccessorErrMsg : String := "AttributeError: can only use .str accessor with string values"

def nameErrMsg : String := "UndefinedVariableError: name is not defined"

def evalAtomOnRow (r : QRow) : QAtom → Except String Bool
  | QAtom.anum c op v =>
      match List.lookup c r with
      | none => Except.error nameErrMsg
      | some (CellVal.cnum q) => Except.ok (numCmp op q v)
      | some CellVal.cnan => Except.ok (op == NumOp.ne)
      | some (CellVal.cstr _) => Except.error typeErrMsg
  | QAtom.asub c v =>
      match List.lookup c r with
      | none => Except.error nameErrMsg
      | some (CellVal.cstr s) => Except.ok (strContainsCF v (some s))
      | some CellVal.cnan => Except.ok false
      | some (CellVal.cnum _) => Except.error strAccessorErrMsg
  | QAtom.acmp c isEq v =>
      match List.lookup c r with
      | none => Except.error nameErrMsg
      | some (CellVal.cstr s) => Except.ok (if isEq then s == v else !(s == v))
      | some CellVal.cnan => Except.ok (!isEq)
      | some (CellVal.cnum _) => Except.error typeErrMsg

def parseTail : List Frag → Option (List (Conn × QAtom))
  | [] => some []
  | Frag.fconn l :: Frag.fcond a :: rest => (parseTail rest).map (fun t => (l, a) :: t)
  | _ => none

def parseQ : List Frag → Option (QAtom × List (Conn × QAtom))
  | Frag.fcond a :: rest => (parseTail rest).map (fun t => (a, t))
  | _ => none

def toChainsAux : List (Conn × QAtom) → List QAtom → List (List QAtom)
  | [], cur => [cur]
  | (Conn.cand, a) :: rest, cur => toChainsAux rest (cur ++ [a])
  | (Conn.cor, a) :: rest, cur => cur :: toChainsAux rest [a]

def toChains (a : QAtom) (t : List (Conn × QAtom)) : List (List QAtom) :=
  toChainsAux t [a]

def evalChainRow (r : QRow) : List QAtom → Except String Bool
  | [] => Except.ok true
  | a :: rest => do
      let b ← evalAtomOnRow r a
      let c ← evalChainRow r rest
      Except.ok (b && c)

def evalOrRow (r : QRow) : List (List QAtom) → Except String Bool
  | [] => Except.ok false
  | ch :: rest => do
      let b ← evalChainRow r ch
      let c ← evalOrRow r rest
      Except.ok (b || c)

def filterE {β : Type} (p : β → Except String Bool) : List β → Except String (List β)
  | [] => Except.ok []
  | r :: rest => do
      let b ← p r
      let t ← filterE p rest
      Except.ok (if b then r :: t else t)

def syntaxErrMsg : String := "SyntaxError: invalid query expression"

def evalQueryOnDf (frags : List Frag) (df : List QRow) : Except String (List QRow) :=
  match parseQ frags with
  | none => Except.error syntaxErrMsg
  | some (a, t) => filterE (fun r => evalOrRow r (toChains a t)) df

-- Rendering of the generated query text (lines 456-515); quote-escaping
-- of string literals is omitted because it cancels against the parser
-- (see the comment at the top of this section), and string literals are
-- shown without surrounding quotes.
def renderNumOp : NumOp → String
  | NumOp.gt => ">"
  | NumOp.lt => "<"
  | NumOp.ge => ">="
  | NumOp.le => "<="
  | NumOp.eq => "=="
  | NumOp.ne => "!="

def renderAtom : QAtom → String
  | QAtom.anum c op v => "`" ++ c ++ "` " ++ renderNumOp op ++ " " ++ toString v
  | QAtom.asub c v => "`" ++ c ++ "`.str.contains(" ++ v ++ ", case=False, na=False)"
  | QAtom.acmp c isEq v => "`" ++ c ++ "` " ++ (if isEq then "==" else "!=") ++ " " ++ v

def renderFrag : Frag → String
  | Frag.fcond a => renderAtom a
  | Frag.fconn Conn.cand => "and"
  | Frag.fconn Conn.cor => "or"

def renderFrags (parts : List Frag) : String :=
  String.intercalate " " (parts.map renderFrag)

structure QBOut where
  df : List QRow
  applied : Bool
  details : List String
  errs : List String
deriving DecidableEq

-- The query-builder operation with the Apply button pressed: the empty-data
-- short circuit (lines 409-411), fragment assembly, trailing-connective
-- strip, the emptiness checks of lines 506 and 513, one evaluation against
-- self.original_df, and the per-query exception handler of lines 518-525.
-- When nothing is evaluated or evaluation fails, control falls through to
-- line 541 returning (original, False, []).
def queryBuilderRun (orig : List QRow) (conds : List QCond) (logics : List Conn) : QBOut :=
  if orig = [] then
    { df := orig, applied := false, details := [], errs := ["No data available for querying"] }
  else
    let parts := buildParts conds logics
    if parts = [] then
      { df := orig, applied := false, details := [], errs := [] }
    else
      let fp := popTrailing parts
      if fp = [] then
        { df := orig, applied := false, details := [], errs := [] }
      else
        match evalQueryOnDf fp orig with
        | Except.ok res =>
            { df := res, applied := true,
              details := ["Safe Query: " ++ renderFrags fp], errs := [] }
        | Except.error e =>
            { df := orig, applied := false, details := [],
              errs := ["Query error: " ++ e] }

-- ------------------------------------------------------------------
-- DataFilter._join_datasets (lines 124-254), modelling the path after the
-- Join button is pressed (lines 204-254).  Rows are association lists
-- from column name to value; the declared dtype of a key column is kept
-- alongside the rows.  jnull models NaN.  Coercions follow lines 210-220:
-- when either side is object, both keys become strings; an int key is
-- widened to float when the other side is float.  pd.merge (lines
-- 223-230) raises exactly when one key column is object and the other is
-- numeric; int64/float64 keys merge fine with numeric key equality, and
-- NaN keys match each other.  The suffix disambiguation of overlapping
-- non-key column names is not modelled (no claim depends on it); a joined
-- row is the concatenation of the two source rows.
-- ------------------------------------------------------------------

inductive JVal where
  | ji (n : ℤ)
  | jf (q : ℚ)
  | js (s : String)
  | jnull
deriving DecidableEq

inductive DType where
  | dInt
  | dFloat
  | dObj
deriving DecidableEq

abbrev JRow : Type := List (String × JVal)

structure JoinDS where
  name : String
  keyCol : String
  keyDtype : DType
  cols : List String
  rows : List JRow
deriving DecidableEq

inductive JoinType where
  | inner
  | left
  | right
  | outer
deriving DecidableEq

def jvalToStr : JVal → String
  | JVal.ji n => toString n
  | JVal.jf q => toString q
  | JVal.js s => s
  | JVal.jnull => "nan"

def jvalToFloat : JVal → JVal
  | JVal.ji n => JVal.jf (n : ℚ)
  | v => v

def astypeStrDS (ds : JoinDS) : JoinDS :=
  { ds with
    keyDtype := DType.dObj
    rows := ds.rows.map (fun r =>
      r.map (fun kv => if kv.1 == ds.keyCol then (kv.1, JVal.js (jvalToStr kv.2)) else kv)) }

def astypeFloatDS (ds : JoinDS) : JoinDS :=
  { ds with
    keyDtype := DType.dFloat
    rows := ds.rows.map (fun r =>
      r.map (fun kv => if kv.1 == ds.keyCol then (kv.1, jvalToFloat kv.2) else kv)) }

-- Lines 210-220: auto-fix preparation (only when the auto-fix box is
-- checked and the declared key dtypes differ).
def prepDatasets (lds rds : JoinDS) (autoFix : Bool) : JoinDS × JoinDS :=
  let compatibility := lds.keyDtype == rds.keyDtype
  if autoFix && !compatibility then
    if lds.keyDtype == DType.dObj || rds.keyDtype == DType.dObj then
      (astypeStrDS lds, astypeStrDS rds)
    else if lds.keyDtype == DType.dInt && rds.keyDtype == DType.dFloat then
      (astypeFloatDS lds, rds)
    else if lds.keyDtype == DType.dFloat && rds.keyDtype == DType.dInt then
      (lds, astypeFloatDS rds)
    else (lds, rds)
  else (lds, rds)

-- pd.merge succeeds unless exactly one key column is object-typed.
def mergeOk (a b : DType) : Bool :=
  (a == DType.dObj) == (b == DType.dObj)

-- Key equality used by the merge: numeric values compare numerically
-- across int/float, strings by equality, NaN keys match each other.
def jvalKeyEq : JVal → JVal → Bool
  | JVal.ji a, JVal.ji b => a == b
  | JVal.jf a, JVal.jf b => a == b
  | JVal.ji a, JVal.jf b => (a : ℚ) == b
  | JVal.jf a, JVal.ji b => a == (b : ℚ)
  | JVal.js a, JVal.js b => a == b
  | JVal.jnull, JVal.jnull => true
  | _, _ => false

def getKey (ds : JoinDS) (r : JRow) : JVal :=
  (List.lookup ds.keyCol r).getD JVal.jnull

def nullRow (cols : List String) : JRow :=
  cols.map (fun c => (c, JVal.jnull))

def keyMatches (lds rds : JoinDS) (l r : JRow) : Bool :=
  jvalKeyEq (getKey lds l) (getKey rds r)

def mergeRows (how : JoinType) (lds rds : JoinDS) : List JRow :=
  match how with
  | JoinType.inner =>
      lds.rows.flatMap (fun l =>
        (rds.rows.filter (fun r => keyMatches lds rds l r)).map (fun r => l ++ r))
  | JoinType.left =>
      lds.rows.flatMap (fun l =>
        let ms := rds.rows.filter (fun r => keyMatches lds rds l r)
        if ms.isEmpty then [l ++ nullRow rds.cols] else ms.map (fun r => l ++ r))
  | JoinType.right =>
      rds.rows.flatMap (fun r =>
        let ms := lds.rows.filter (fun l => keyMatches lds rds l r)
        if ms.isEmpty then [nullRow lds.cols ++ r] else ms.map (fun l => l ++ r))
  | JoinType.outer =>
      (lds.rows.flatMap (fun l =>
        let ms := rds.rows.filter (fun r => keyMatches lds rds l r)
        if ms.isEmpty then [l ++ nullRow rds.cols] else ms.map (fun r => l ++ r))) ++
      ((rds.rows.filter (fun r => lds.rows.all (fun l => !keyMatches lds rds l r))).map
        (fun r => nullRow lds.cols ++ r))

def joinDesc (lds rds : JoinDS) : String :=
  "Joined " ++ lds.name ++ " + " ++ rds.name ++ " on " ++ lds.keyCol ++ "/" ++ rds.keyCol

def joinFailErrs : List String :=
  ["Join failed: cannot merge on incompatible key column types",
   "Try: enable Auto-fix types"]

structure JoinOut where
  state : DFState JRow
  df : List JRow
  applied : Bool
  details : List String
  errs : List String
deriving DecidableEq

-- Lines 204-254: on success the session field original_df is replaced by the
-- join result (line 245) and the triple (joined, True, [description]) is
-- returned (line 247); on a merge error the exception is caught, an error
-- is shown (lines 249-252), and control falls to line 254 returning
-- (self.original_df, False, []) with the session state untouched.
def joinDatasetsRun (s : DFState JRow) (lds rds : JoinDS)
    (autoFix : Bool) (how : JoinType) : JoinOut :=
  let p := prepDatasets lds rds autoFix
  if mergeOk p.1.keyDtype p.2.keyDtype then
    let joined := mergeRows how p.1 p.2
    { state := { s with original_df := joined }
      df := joined
      applied := true
      details := [joinDesc lds rds]
      errs := [] }
  else
    { state := s
      df := s.original_df
      applied := false
      details := []
      errs := joinFailErrs }

-- ------------------------------------------------------------------
-- Auxiliary projection used to state which conditions survive fragment
-- assembly, and concrete inputs used by witnesses and counterexamples.
-- ------------------------------------------------------------------

def fragAtomOf : Frag → Option QAtom
  | Frag.fcond a => some a
  | Frag.fconn _ => none

-- A categorical column with 51 distinct values, none containing a dot.
def cexOrig51 : List (Option String) :=
  (List.range 51).map (fun i => some (toString i))

-- Query-builder conditions whose middle condition has an empty text value.
def cexConds : List QCond :=
  [QCond.qcat "city" CatOp.ceq "NY",
   QCond.qcat "name" CatOp.ceq "",
   QCond.qcat "city" CatOp.ceq "LA"]

def cexLogics : List Conn := [Conn.cand, Conn.cand]

def cexQOrig : List QRow := [[("city", CellVal.cstr "NY")]]

-- Join counterexample: int64 left key vs float64 right key.
def c5state : DFState JRow := mkDataFilter [[("a", JVal.ji 0)]]

def c5left : JoinDS :=
  { name := "L", keyCol := "k", keyDtype := DType.dInt,
    cols := ["k"], rows := [[("k", JVal.ji 1)]] }

def c5right : JoinDS :=
  { name := "R", keyCol := "k2", keyDtype := DType.dFloat,
    cols := ["k2"], rows := [[("k2", JVal.jf 1)]] }

-- Join witness: two compatible integer-keyed datasets.
def c3state : DFState JRow := mkDataFilter [[("a", JVal.ji 0)]]

def c3left : JoinDS :=
  { name := "orders", keyCol := "customer_id", keyDtype := DType.dInt,
    cols := ["customer_id", "amount"],
    rows := [[("customer_id", JVal.ji 1), ("amount", JVal.jf 10)]] }

def c3right : JoinDS :=
  { name := "customers", keyCol := "id", keyDtype := DType.dInt,
    cols := ["id", "cname"],
    rows := [[("id", JVal.ji 1), ("cname", JVal.js "Ana")]] }

-- Join witness for the blocked object/numeric mismatch.
def c5bleft : JoinDS :=
  { name := "L2", keyCol := "k", keyDtype := DType.dObj,
    cols := ["k"], rows := [[("k", JVal.js "1")]] }

-- ==================================================================
-- Theorems
-- ==================================================================

-- Pointwise identity between the code mask of the numeric filter and the
-- predicate stated by the spec.
theorem numMask_eq_claim (v : Option ℚ) (fmin fmax : ℚ) :
    numMask v fmin fmax =
      (match v with
       | some q => decide (fmin ≤ q ∧ q ≤ fmax)
       | none => false) := by
  cases v <;> simp [numMask]

/-- C9: clear_filters returns a dataset equal to the session current
original dataset, sets the filtered dataset to that original, and resets
the metadata to inactive: active is false, filtered_count equals
original_count, and the list of applied-filter descriptions is empty. -/
theorem clear_filters_resets {α : Type} (s : DFState α) :
    (clearFilters s).2 = s.original_df ∧
    (clearFilters s).1.filtered_df = s.original_df ∧
    (clearFilters s).1.filter_info.active = false ∧
    (clearFilters s).1.filter_info.filtered_count =
      (clearFilters s).1.filter_info.original_count ∧
    (clearFilters s).1.filter_info.filters_applied = [] :=
  ⟨rfl, rfl, rfl, rfl, rfl⟩

/-- C8: a numeric filter request with final_min greater than final_max is a
terminal per-field validation error: an error message is emitted, no
fallback is applied, the filter is reported as not applied, and the
accumulated filtered dataset passed in is returned unchanged (so filters
already applied on other columns stay intact). -/
theorem numeric_min_gt_max_rejected {α : Type} (orig df : List α)
    (col : α → Option ℚ) (colName : String) (fmin fmax : ℚ) (h : fmax < fmin) :
    handleNumericFilter orig df col colName fmin fmax =
      (some (numErrMsg fmin fmax), df, false, "") := by
  unfold handleNumericFilter
  rw [if_pos h]

theorem numeric_min_gt_max_rejected_witness :
    (3 : ℚ) < 7 ∧
    handleNumericFilter [some (3 : ℚ), some 9] [some (3 : ℚ), some 9] id "age" 7 3 =
      (some (numErrMsg 7 3), [some (3 : ℚ), some 9], false, "") :=
  ⟨by norm_num,
   numeric_min_gt_max_rejected [some (3 : ℚ), some 9] [some (3 : ℚ), some 9] id "age" 7 3
     (by norm_num)⟩

/-- C1: for a numeric filter with final_min ≤ final_max, if the selected
bounds equal the original column full (min, max) the filter is a no-op
(the input dataset is returned unchanged, applied is false); otherwise the
result is exactly the rows of the input whose value v satisfies
final_min ≤ v ≤ final_max (both ends inclusive, missing values never
qualifying) with applied true. -/
theorem numeric_filter_spec {α : Type} (orig df : List α) (col : α → Option ℚ)
    (colName : String) (fmin fmax : ℚ) (h : fmin ≤ fmax) :
    ((some fmin = colMin orig col ∧ some fmax = colMax orig col) →
        handleNumericFilter orig df col colName fmin fmax = (none, df, false, "")) ∧
    (¬(some fmin = colMin orig col ∧ some fmax = colMax orig col) →
        handleNumericFilter orig df col colName fmin fmax =
          (none,
           df.filter (fun r =>
             match col r with
             | some v => decide (fmin ≤ v ∧ v ≤ fmax)
             | none => false),
           true, numDesc colName fmin fmax)) := by
  constructor
  · rintro ⟨h1, h2⟩
    unfold handleNumericFilter
    rw [if_neg (not_lt.mpr h), if_neg]
    rintro (hc | hc)
    · exact hc h1
    · exact hc h2
  · intro hne
    unfold handleNumericFilter
    rw [if_neg (not_lt.mpr h), if_pos]
    · have hf : (fun r => numMask (col r) fmin fmax) =
          (fun r =>
            match col r with
            | some v => decide (fmin ≤ v ∧ v ≤ fmax)
            | none => false) := by
        funext r
        exact numMask_eq_claim (col r) fmin fmax
      rw [hf]
    · by_cases e1 : some fmin = colMin orig col
      · right
        intro e2
        exact hne ⟨e1, e2⟩
      · left
        exact e1

theorem numeric_filter_spec_witness :
    ((1 : ℚ) ≤ 3) ∧
    (¬(some (1 : ℚ) = colMin [some (1 : ℚ), some 5] id ∧
        some (3 : ℚ) = colMax [some (1 : ℚ), some 5] id)) ∧
    handleNumericFilter [some (1 : ℚ), some 5] [some (1 : ℚ), some 5] id "age" 1 3 =
      (none,
       [some (1 : ℚ), some 5].filter (fun r =>
         match (r : Option ℚ) with
         | some v => decide ((1 : ℚ) ≤ v ∧ v ≤ 3)
         | none => false),
       true, numDesc "age" 1 3) :=
  ⟨by norm_num, by decide,
   (numeric_filter_spec [some (1 : ℚ), some 5] [some (1 : ℚ), some 5] id "age" 1 3
     (by norm_num)).2 (by decide)⟩

/-- C10 (implicit): whenever a filter is actually applied, rows with a
missing value in the filtered column are excluded: a numeric range filter
drops NaN rows (NaN satisfies neither bound comparison), and a categorical
substring search (the branch taken when the column has more than 50
distinct values and the term is non-empty) drops rows with missing values
(na=False makes the containment test non-matching on missing). -/
theorem applied_filters_drop_missing :
    (∀ (α : Type) (orig df : List α) (col : α → Option ℚ) (colName : String)
        (fmin fmax : ℚ) (e : Option String) (res : List α) (d : String),
        handleNumericFilter orig df col colName fmin fmax = (e, res, true, d) →
        res.all (fun r => (col r).isSome) = true) ∧
    (∀ (α : Type) (orig df : List α) (col : α → Option String) (colName : String)
        (sel : List (Option String)) (term : String) (res : List α) (d : String),
        50 < ((orig.map col).dedup).length →
        handleCategoricalFilter orig df col colName sel term = (res, true, d) →
        res.all (fun r => (col r).isSome) = true) := by
  constructor
  · intro α orig df col colName fmin fmax e res d hres
    unfold handleNumericFilter at hres
    split_ifs at hres with h1 h2
    · simp at hres
    · have hres2 := congrArg (fun t => t.2.1) hres
      simp only at hres2
      rw [← hres2]
      simp only [List.all_eq_true]
      intro r hr
      rcases List.mem_filter.mp hr with ⟨_, hm⟩
      cases hc : col r
      · rw [hc] at hm
        simp [numMask] at hm
      · simp
    · simp at hres
  · intro α orig df col colName sel term res d h50 hres
    unfold handleCategoricalFilter at hres
    rw [if_neg (not_le.mpr h50)] at hres
    split_ifs at hres with ht
    · have hres2 := congrArg (fun t => t.1) hres
      simp only at hres2
      rw [← hres2]
      simp only [List.all_eq_true]
      intro r hr
      rcases List.mem_filter.mp hr with ⟨_, hm⟩
      cases hc : col r
      · rw [hc] at hm
        simp [strContainsCF] at hm
      · simp
    · simp at hres

theorem applied_filters_drop_missing_witness :
    (handleNumericFilter [some (1 : ℚ), none, some 5] [some (1 : ℚ), none, some 5] id "x" 1 2 =
        (none, [some (1 : ℚ)], true, numDesc "x" 1 2) ∧
      ([some (1 : ℚ)].all (fun r => r.isSome) = true)) ∧
    (50 < (((cexOrig51 ++ [none]).map id).dedup).length ∧
      (((handleCategoricalFilter (cexOrig51 ++ [none]) (cexOrig51 ++ [none]) id "c" [] "0").1).all
        (fun r => r.isSome) = true)) :=
  ⟨⟨by decide,
    applied_filters_drop_missing.1 (Option ℚ) [some 1, none, some 5] [some 1, none, some 5]
      id "x" 1 2 none [some 1] (numDesc "x" 1 2) (by decide)⟩,
   ⟨by decide,
    applied_filters_drop_missing.2 (Option String) (cexOrig51 ++ [none]) (cexOrig51 ++ [none])
      id "c" [] "0" (handleCategoricalFilter (cexOrig51 ++ [none]) (cexOrig51 ++ [none]) id "c" [] "0").1
      (handleCategoricalFilter (cexOrig51 ++ [none]) (cexOrig51 ++ [none]) id "c" [] "0").2.2
      (by decide) (by decide)⟩⟩

/-- C7 (amended): for a categorical filter whose selection is drawn without
repetition from the distinct values of the column: with at most 50 distinct
values, selecting the full set of distinct values is a no-op (applied is
false, input unchanged) and selecting a strict subset keeps exactly the
rows whose value lies in the subset; with more than 50 distinct values, an
empty search term is a no-op, and a non-empty term keeps exactly the rows
whose value matches the term interpreted as a case-insensitive regular
expression (plain substring containment only for metacharacter-free
terms; the original claim read this as substring containment, which the
counterexample refutes). -/
theorem categorical_filter_amended {α : Type} (orig df : List α) (col : α → Option String)
    (colName : String) (selected : List (Option String)) (term : String)
    (hnd : selected.Nodup)
    (hsub : ∀ v ∈ selected, v ∈ (orig.map col).dedup) :
    (((orig.map col).dedup.length ≤ 50 ∧ ∀ v ∈ (orig.map col).dedup, v ∈ selected) →
        handleCategoricalFilter orig df col colName selected term = (df, false, "")) ∧
    (((orig.map col).dedup.length ≤ 50 ∧ ∃ w ∈ (orig.map col).dedup, w ∉ selected) →
        handleCategoricalFilter orig df col colName selected term =
          (df.filter (fun r => decide (col r ∈ selected)), true,
           catSubsetDesc colName selected.length (orig.map col).dedup.length)) ∧
    ((50 < (orig.map col).dedup.length ∧ term = "") →
        handleCategoricalFilter orig df col colName selected term = (df, false, "")) ∧
    ((50 < (orig.map col).dedup.length ∧ term ≠ "") →
        handleCategoricalFilter orig df col colName selected term =
          (df.filter (fun r => strContainsCF term (col r)), true,
           catSearchDesc colName term)) := by
  refine ⟨?full, ?strict, ?noterm, ?search⟩
  case full =>
    rintro ⟨h50, hfull⟩
    have hperm : selected.Perm ((orig.map col).dedup) :=
      (List.perm_ext_iff_of_nodup hnd (List.nodup_dedup _)).mpr
        (fun a => ⟨fun ha => hsub a ha, fun ha => hfull a ha⟩)
    have hlen := hperm.length_eq
    unfold handleCategoricalFilter
    rw [if_pos h50, if_neg (by rw [hlen]; exact lt_irrefl _)]
  case strict =>
    rintro ⟨h50, w, hw, hwn⟩
    have hsubF : selected.toFinset ⊆ ((orig.map col).dedup).toFinset := by
      intro x hx
      rw [List.mem_toFinset] at hx ⊢
      exact hsub x hx
    have hss : selected.toFinset ⊂ ((orig.map col).dedup).toFinset :=
      (Finset.ssubset_iff_of_subset hsubF).mpr
        ⟨w, by rwa [List.mem_toFinset], by rwa [List.mem_toFinset]⟩
    have hcard := Finset.card_lt_card hss
    rw [List.toFinset_card_of_nodup hnd,
        List.toFinset_card_of_nodup (List.nodup_dedup _)] at hcard
    unfold handleCategoricalFilter
    rw [if_pos h50, if_pos hcard]
    have hf : (fun r => selected.contains (col r)) =
        (fun r => decide (col r ∈ selected)) := by
      funext r
      simp [List.contains, List.elem_eq_mem]
    rw [hf]
  case noterm =>
    rintro ⟨h50, ht⟩
    unfold handleCategoricalFilter
    rw [if_neg (not_le.mpr h50), if_neg (fun hne => hne ht)]
  case search =>
    rintro ⟨h50, ht⟩
    unfold handleCategoricalFilter
    rw [if_neg (not_le.mpr h50), if_pos ht]

theorem categorical_filter_amended_witness :
    ([some "NY"] : List (Option String)).Nodup ∧
    (∀ v ∈ ([some "NY"] : List (Option String)),
        v ∈ (([some "NY", some "LA", some "SF"] : List (Option String)).map id).dedup) ∧
    ((([some "NY", some "LA", some "SF"] : List (Option String)).map id).dedup.length ≤ 50 ∧
      ∃ w ∈ (([some "NY", some "LA", some "SF"] : List (Option String)).map id).dedup,
        w ∉ ([some "NY"] : List (Option String))) ∧
    handleCategoricalFilter [some "NY", some "LA", some "SF"]
        [some "NY", some "LA", some "SF"] id "city" [some "NY"] "" =
      ([some "NY", some "LA", some "SF"].filter
          (fun r => decide ((id r : Option String) ∈ ([some "NY"] : List (Option String)))),
        true,
        catSubsetDesc "city" 1
          ((([some "NY", some "LA", some "SF"] : List (Option String)).map id).dedup.length)) :=
  ⟨by decide, by decide, ⟨by decide, by decide⟩,
   (categorical_filter_amended [some "NY", some "LA", some "SF"]
      [some "NY", some "LA", some "SF"] id "city" [some "NY"] ""
      (by decide) (by decide)).2.1 ⟨by decide, by decide⟩⟩

/-- C7 counterexample: with 51 distinct values (so the substring-search
branch is taken) and the non-empty search term ".", the code keeps every
row, because str.contains interprets the term as a regular expression in
which the dot matches any character; the rows whose value literally
contains "." (as the claim reads) form the empty list.  The claimed
"exactly the rows whose value contains the term" is therefore false at
this input. -/
theorem categorical_regex_counterexample :
    handleCategoricalFilter cexOrig51 cexOrig51 id "c" [] "." =
      (cexOrig51, true, catSearchDesc "c" ".") ∧
    cexOrig51.filter (fun r => substrContainsSpec "." r) = [] := by
  constructor
  · decide
  · decide

-- Appending a connective fragment contributes nothing to the surviving
-- condition fragments.
theorem filterMap_fragAtomOf_concat_conn (l : List Frag) (c : Conn) :
    (l ++ [Frag.fconn c]).filterMap fragAtomOf = l.filterMap fragAtomOf := by
  simp [fragAtomOf]

theorem buildPartsAux_all_dropped (n : Nat) (logics : List Conn) :
    ∀ (rest : List (Nat × QCond)), (∀ ic ∈ rest, emits ic.2 = false) →
      buildPartsAux n logics rest [] = [] := by
  intro rest
  induction rest with
  | nil => intro _; rfl
  | cons ic rest ih =>
      obtain ⟨i, c⟩ := ic
      intro h
      have he : emits c = false := h (i, c) (List.mem_cons_self _ _)
      simp only [buildPartsAux, he]
      simp only [Bool.false_eq_true, if_false, if_pos rfl]
      split
      · exact ih (fun x hx => h x (List.mem_cons_of_mem _ hx))
      · exact ih (fun x hx => h x (List.mem_cons_of_mem _ hx))

theorem buildPartsAux_filterMap (n : Nat) (logics : List Conn) :
    ∀ (rest : List (Nat × QCond)) (acc : List Frag),
      (buildPartsAux n logics rest acc).filterMap fragAtomOf =
        acc.filterMap fragAtomOf ++ ((rest.map Prod.snd).filter emits).map condAtom := by
  intro rest
  induction rest with
  | nil => intro acc; simp [buildPartsAux]
  | cons ic rest ih =>
      obtain ⟨i, c⟩ := ic
      intro acc
      cases he : emits c with
      | false =>
          simp only [buildPartsAux, he]
          simp only [Bool.false_eq_true, if_false]
          split
          · split
            · rw [ih]
              simp [he]
            · rw [ih, filterMap_fragAtomOf_concat_conn]
              simp [he]
          · rw [ih]
            simp [he]
      | true =>
          simp only [buildPartsAux, he, if_true]
          split
          · split
            · rw [ih]
              simp [he, fragAtomOf]
            · rw [ih, filterMap_fragAtomOf_concat_conn]
              simp [he, fragAtomOf]
          · rw [ih]
            simp [he, fragAtomOf]

/-- C2 (amended): in the query compiler, a categorical/text or
fallback-kind condition with an empty text value is dropped (it emits no
fragment: the surviving fragments are exactly the emitted conditions, in
order); if all conditions are dropped, applied is false and the original
dataset is returned; one trailing dangling connective is stripped before
evaluation (which repairs the case where only the final condition is
dropped); but a connective attached to a dropped non-final condition
survives, so a doubled connective such as "and and" can appear (see the
counterexample) — the resulting malformed expression fails to parse at
evaluation, the error is reported, and the original dataset is returned
with applied false. -/
theorem queryBuilder_amended (orig : List QRow) (conds : List QCond) (logics : List Conn) :
    ((∀ c ∈ conds, emits c = false) →
        (queryBuilderRun orig conds logics).df = orig ∧
        (queryBuilderRun orig conds logics).applied = false ∧
        (queryBuilderRun orig conds logics).details = []) ∧
    ((buildParts conds logics).filterMap fragAtomOf = (conds.filter emits).map condAtom) ∧
    (∀ (ps : List Frag) (l : Conn), popTrailing (ps ++ [Frag.fconn l]) = ps) ∧
    (parseQ (popTrailing (buildParts conds logics)) = none →
        (queryBuilderRun orig conds logics).df = orig ∧
        (queryBuilderRun orig conds logics).applied = false ∧
        (queryBuilderRun orig conds logics).details = []) := by
  refine ⟨?dropped, ?exact, ?pop, ?malformed⟩
  case dropped =>
    intro h
    have hb : buildParts conds logics = [] := by
      unfold buildParts
      apply buildPartsAux_all_dropped
      intro ic hic
      apply h
      have hg := List.mem_enum_iff_getElem?.mp hic
      exact List.getElem?_mem hg
    simp only [queryBuilderRun, hb]
    split_ifs <;> simp
  case exact =>
    unfold buildParts
    rw [buildPartsAux_filterMap]
    simp [List.enum_map_snd]
  case pop =>
    intro ps l
    unfold popTrailing
    rw [List.getLast?_concat, List.dropLast_concat]
  case malformed =>
    intro hp
    simp only [queryBuilderRun]
    split_ifs with h1 h2 h3
    · exact ⟨rfl, rfl, rfl⟩
    · exact ⟨rfl, rfl, rfl⟩
    · exact ⟨rfl, rfl, rfl⟩
    · simp [evalQueryOnDf, hp]

theorem queryBuilder_amended_witness :
    (∀ c ∈ [QCond.qcat "city" CatOp.ceq "", QCond.qfall "d" true ""], emits c = false) ∧
    ((queryBuilderRun cexQOrig [QCond.qcat "city" CatOp.ceq "", QCond.qfall "d" true ""]
        [Conn.cand]).df = cexQOrig ∧
      (queryBuilderRun cexQOrig [QCond.qcat "city" CatOp.ceq "", QCond.qfall "d" true ""]
        [Conn.cand]).applied = false ∧
      (queryBuilderRun cexQOrig [QCond.qcat "city" CatOp.ceq "", QCond.qfall "d" true ""]
        [Conn.cand]).details = []) :=
  ⟨by decide,
   (queryBuilder_amended cexQOrig [QCond.qcat "city" CatOp.ceq "", QCond.qfall "d" true ""]
      [Conn.cand]).1 (by decide)⟩

/-- C2 counterexample: with three conditions whose middle condition has an
empty text value, the assembled fragment list contains the doubled
connective "and and" between the two surviving fragments, contradicting
the claim that no doubled connective appears; the malformed expression
then fails to parse, so the run reports a query error and returns the
original dataset with applied false. -/
theorem queryBuilder_doubled_connective :
    buildParts cexConds cexLogics =
      [Frag.fcond (QAtom.acmp "city" true "NY"), Frag.fconn Conn.cand,
       Frag.fconn Conn.cand, Frag.fcond (QAtom.acmp "city" true "LA")] ∧
    queryBuilderRun cexQOrig cexConds cexLogics =
      { df := cexQOrig, applied := false, details := [],
        errs := ["Query error: " ++ syntaxErrMsg] } := by
  constructor
  · decide
  · decide

/-- C6: the assembled query expression is evaluated once against the
original (baseline) dataset of the session; if evaluation fails the failure is
caught and reported as a user-facing error (no exception propagates) and
the original dataset is returned unfiltered with applied false; if
evaluation succeeds the result of evaluating against the original dataset
is returned with applied true. -/
theorem query_eval_total (orig : List QRow) (conds : List QCond) (logics : List Conn)
    (horig : orig ≠ []) (hparts : buildParts conds logics ≠ [])
    (hfp : popTrailing (buildParts conds logics) ≠ []) :
    (∀ e, evalQueryOnDf (popTrailing (buildParts conds logics)) orig = Except.error e →
        queryBuilderRun orig conds logics =
          { df := orig, applied := false, details := [],
            errs := ["Query error: " ++ e] }) ∧
    (∀ res, evalQueryOnDf (popTrailing (buildParts conds logics)) orig = Except.ok res →
        queryBuilderRun orig conds logics =
          { df := res, applied := true,
            details := ["Safe Query: " ++ renderFrags (popTrailing (buildParts conds logics))],
            errs := [] }) := by
  constructor
  · intro e he
    simp only [queryBuilderRun]
    rw [if_neg horig, if_neg hparts, if_neg hfp, he]
  · intro res hres
    simp only [queryBuilderRun]
    rw [if_neg horig, if_neg hparts, if_neg hfp, hres]

theorem query_eval_total_witness :
    (([[("age", CellVal.cstr "x")]] : List QRow) ≠ [] ∧
      queryBuilderRun [[("age", CellVal.cstr "x")]] [QCond.qnum "age" NumOp.gt 5] [] =
        { df := [[("age", CellVal.cstr "x")]], applied := false, details := [],
          errs := ["Query error: " ++ typeErrMsg] }) ∧
    (queryBuilderRun [[("age", CellVal.cnum 40)], [("age", CellVal.cnum 20)]]
        [QCond.qnum "age" NumOp.gt 30] [] =
      { df := [[("age", CellVal.cnum 40)]], applied := true,
        details := ["Safe Query: " ++
          renderFrags (popTrailing (buildParts [QCond.qnum "age" NumOp.gt 30] []))],
        errs := [] }) :=
  ⟨⟨by decide,
    (query_eval_total [[("age", CellVal.cstr "x")]] [QCond.qnum "age" NumOp.gt 5] []
      (by decide) (by decide) (by decide)).1 typeErrMsg rfl⟩,
   (query_eval_total [[("age", CellVal.cnum 40)], [("age", CellVal.cnum 20)]]
      [QCond.qnum "age" NumOp.gt 30] []
      (by decide) (by decide) (by decide)).2 [[("age", CellVal.cnum 40)]] rfl⟩

/-- C4 evaluation at the failing input: a dataset with a single selected
filter column whose dtype is outside the object/category, int64/float64
and datetime dispatch groups (for example a bool column) makes
_simple_filters read the local variable col_filtered before any branch has
assigned it, so an UnboundLocalError escapes instead of a
(dataset, applied, description) result being returned. -/
theorem simpleFilters_unbound_local :
    simpleFilters [()] [ColSpec.otherCol] = Except.error unboundLocalMsg := rfl

/-- C3: a join whose relational merge completes without error replaces the
baseline original dataset of the session with the join result (so reset now
returns the joined dataset), and returns the joined dataset with applied
true and a join description naming both source datasets and the key
columns used. -/
theorem join_success_replaces_original (s : DFState JRow) (lds rds : JoinDS)
    (autoFix : Bool) (how : JoinType)
    (h : mergeOk (prepDatasets lds rds autoFix).1.keyDtype
          (prepDatasets lds rds autoFix).2.keyDtype = true) :
    joinDatasetsRun s lds rds autoFix how =
      { state := { s with
          original_df :=
            mergeRows how (prepDatasets lds rds autoFix).1 (prepDatasets lds rds autoFix).2 }
        df := mergeRows how (prepDatasets lds rds autoFix).1 (prepDatasets lds rds autoFix).2
        applied := true
        details := [joinDesc lds rds]
        errs := [] } ∧
    (clearFilters (joinDatasetsRun s lds rds autoFix how).state).2 =
      (joinDatasetsRun s lds rds autoFix how).df := by
  have hrun : joinDatasetsRun s lds rds autoFix how =
      { state := { s with
          original_df :=
            mergeRows how (prepDatasets lds rds autoFix).1 (prepDatasets lds rds autoFix).2 }
        df := mergeRows how (prepDatasets lds rds autoFix).1 (prepDatasets lds rds autoFix).2
        applied := true
        details := [joinDesc lds rds]
        errs := [] } := by
    unfold joinDatasetsRun
    rw [if_pos h]
  refine ⟨hrun, ?_⟩
  rw [hrun]
  rfl

theorem join_success_replaces_original_witness :
    mergeOk (prepDatasets c3left c3right false).1.keyDtype
        (prepDatasets c3left c3right false).2.keyDtype = true ∧
    (joinDatasetsRun c3state c3left c3right false JoinType.inner =
      { state := { c3state with
          original_df :=
            mergeRows JoinType.inner (prepDatasets c3left c3right false).1
              (prepDatasets c3left c3right false).2 }
        df := mergeRows JoinType.inner (prepDatasets c3left c3right false).1
          (prepDatasets c3left c3right false).2
        applied := true
        details := [joinDesc c3left c3right]
        errs := [] } ∧
      (clearFilters (joinDatasetsRun c3state c3left c3right false JoinType.inner).state).2 =
        (joinDatasetsRun c3state c3left c3right false JoinType.inner).df) :=
  ⟨by decide,
   join_success_replaces_original c3state c3left c3right false JoinType.inner (by decide)⟩

/-- C5 (amended): a join request whose two key columns have mismatched
declared types with exactly one side textual (object) and the other
numeric, and with auto-fix declined, is blocked: the merge raises, the
error is caught and reported with a suggestion to enable auto-fix,
applied is false, and the session datasets are exactly as before the
request.  (A mere int64/float64 mismatch with auto-fix declined is NOT
blocked: the relational merge succeeds and replaces the session baseline
— see the counterexample.) -/
theorem join_object_mismatch_blocked (s : DFState JRow) (lds rds : JoinDS) (how : JoinType)
    (h : mergeOk lds.keyDtype rds.keyDtype = false) :
    joinDatasetsRun s lds rds false how =
      { state := s, df := s.original_df, applied := false,
        details := [], errs := joinFailErrs } := by
  have hp : prepDatasets lds rds false = (lds, rds) := by
    unfold prepDatasets
    simp
  unfold joinDatasetsRun
  rw [hp]
  rw [if_neg]
  simp [h]

theorem join_object_mismatch_blocked_witness :
    mergeOk c5bleft.keyDtype c5right.keyDtype = false ∧
    joinDatasetsRun c5state c5bleft c5right false JoinType.inner =
      { state := c5state, df := c5state.original_df, applied := false,
        details := [], errs := joinFailErrs } :=
  ⟨by decide,
   join_object_mismatch_blocked c5state c5bleft c5right JoinType.inner (by decide)⟩

/-- C5 counterexample: the left key column is declared int64 and the right
key column float64 — mismatched declared types — and auto-fix is
declined, yet the join is not blocked: the merge succeeds with numeric
key equality, applied is true, and the session original dataset is
replaced (so it is not "exactly as it was before the request"). -/
theorem join_int_float_mismatch_merges :
    c5left.keyDtype ≠ c5right.keyDtype ∧
    (joinDatasetsRun c5state c5left c5right false JoinType.inner).applied = true ∧
    (joinDatasetsRun c5state c5left c5right false JoinType.inner).state.original_df ≠
      c5state.original_df := by
  refine ⟨by decide, by decide, by decide⟩

end InsightStream
